import Mathlib

/-!
Verification of the SENTRIX secret-scanning pipeline against its
natural-language specification.  The Python sources under
`backend/app` are shallowly embedded: pure functions become Lean
functions, dictionaries become explicit lookup functions, the regex /
AST / network libraries used by the code become explicit deterministic
function parameters, and CPython string and base64 semantics are modelled
by executable Lean functions over `List Char` / `Nat` bytes.
-/

namespace Sentrix

/-- Python `str.split(sep)` on a single separator character: splits the
character list at every occurrence of `sep`, keeping empty pieces
(CPython semantics: `"a.".split('.') == ["a", ""]`, `"".split('.') == [""]`). -/
def pySplit (sep : Char) : List Char → List (List Char)
  | [] => [[]]
  | c :: rest =>
    if c = sep then [] :: pySplit sep rest
    else
      match pySplit sep rest with
      | [] => [[c]]
      | h :: t => (c :: h) :: t

theorem pySplit_ne_nil (sep : Char) (l : List Char) : pySplit sep l ≠ [] := by
  induction l with
  | nil => simp [pySplit]
  | cons c rest ih =>
    simp only [pySplit]
    split
    · simp
    · match h : pySplit sep rest with
      | [] => exact absurd h ih
      | x :: xs => simp

/-- The number of pieces `str.split(sep)` produces is one more than the
number of separator occurrences. -/
theorem pySplit_length (sep : Char) (l : List Char) :
    (pySplit sep l).length = l.count sep + 1 := by
  induction l with
  | nil => simp [pySplit]
  | cons c rest ih =>
    simp only [pySplit]
    by_cases hc : c = sep
    · subst hc
      simp [List.count_cons, ih]
    · simp only [if_neg hc]
      match h : pySplit sep rest with
      | [] => exact absurd h (pySplit_ne_nil sep rest)
      | x :: xs =>
        rw [h] at ih
        simp only [List.length_cons] at ih ⊢
        rw [List.count_cons]
        simp [hc, ih]

/-- Python `str.strip(ch)`: remove all leading and trailing occurrences
of the character `ch`. -/
def pyStripChar (ch : Char) (l : List Char) : List Char :=
  ((l.dropWhile (fun c => c = ch)).reverse.dropWhile (fun c => c = ch)).reverse

/-- Python whitespace test used by no-argument `str.strip()`. -/
def pyIsSpace (c : Char) : Bool :=
  c = ' ' ∨ c = '\t' ∨ c = '\n' ∨ c = '\r' ∨ c = Char.ofNat 11 ∨ c = Char.ofNat 12

/-- Python `str.strip()` (no argument): strips whitespace from both ends. -/
def pyStripWs (l : List Char) : List Char :=
  ((l.dropWhile pyIsSpace).reverse.dropWhile pyIsSpace).reverse

/-- Python substring test `needle in hay` over character lists. -/
def strContainsL (hay needle : List Char) : Bool :=
  hay.tails.any (fun t => needle.isPrefixOf t)

/-- Python substring test `needle in hay` over strings. -/
def strContains (hay needle : String) : Bool :=
  strContainsL hay.data needle.data

/-- Python `str.startswith(p)`. -/
def strStartsWith (s p : String) : Bool :=
  p.data.isPrefixOf s.data

/-- Python `str.endswith(p)`. -/
def strEndsWith (s p : String) : Bool :=
  p.data.reverse.isPrefixOf s.data.reverse

/-- Python `str.lower()` (the code only ever lowercases ASCII data). -/
def pyLower (s : String) : String := String.mk (s.data.map Char.toLower)

/-- Python `str.upper()` (ASCII). -/
def pyUpper (s : String) : String := String.mk (s.data.map Char.toUpper)

/-- First-occurrence deduplication keyed by `key`, the functional form of
the `seen = set(); for x in xs: if key(x) in seen: continue` loops used
in `leak_detector.detect_leaks` and (with `key = id`) Python's
`list(dict.fromkeys(xs))` in the OSINT correlator. -/
def dedupeKeyLoop {α κ : Type} [DecidableEq κ] (key : α → κ) : List κ → List α → List α
  | _, [] => []
  | seen, a :: rest =>
    if key a ∈ seen then dedupeKeyLoop key seen rest
    else a :: dedupeKeyLoop key (key a :: seen) rest

theorem dedupeKeyLoop_key_not_mem {α κ : Type} [DecidableEq κ] (key : α → κ) :
    ∀ (seen : List κ) (l : List α) (x : α),
      x ∈ dedupeKeyLoop key seen l → key x ∉ seen := by
  intro seen l
  induction l generalizing seen with
  | nil => intro x hx; simp [dedupeKeyLoop] at hx
  | cons a rest ih =>
    intro x hx
    simp only [dedupeKeyLoop] at hx
    split at hx
    · exact ih seen x hx
    · rcases List.mem_cons.mp hx with h | h
      · subst h; assumption
      · intro hmem
        exact (ih _ x h) (List.mem_cons_of_mem _ hmem)

theorem dedupeKeyLoop_pairwise {α κ : Type} [DecidableEq κ] (key : α → κ) :
    ∀ (seen : List κ) (l : List α),
      List.Pairwise (fun a b => key a ≠ key b) (dedupeKeyLoop key seen l) := by
  intro seen l
  induction l generalizing seen with
  | nil => simp [dedupeKeyLoop]
  | cons a rest ih =>
    simp only [dedupeKeyLoop]
    split
    · exact ih seen
    · refine List.pairwise_cons.mpr ⟨?_, ih (key a :: seen)⟩
      intro b hb hkey
      have := dedupeKeyLoop_key_not_mem key (key a :: seen) rest b hb
      exact this (by simp [hkey])

/-- Ordered set deduplication `list(dict.fromkeys(xs))`. -/
def pyDedup (l : List String) : List String := dedupeKeyLoop id [] l

theorem mem_dedupeKeyLoop_of_mem {α κ : Type} [DecidableEq κ] (key : α → κ) :
    ∀ (seen : List κ) (l : List α) (x : α),
      x ∈ dedupeKeyLoop key seen l → x ∈ l := by
  intro seen l
  induction l generalizing seen with
  | nil => intro x hx; simp [dedupeKeyLoop] at hx
  | cons a rest ih =>
    intro x hx
    simp only [dedupeKeyLoop] at hx
    split at hx
    · exact List.mem_cons_of_mem _ (ih seen x hx)
    · rcases List.mem_cons.mp hx with h | h
      · simp [h]
      · exact List.mem_cons_of_mem _ (ih _ x h)

theorem mem_dedupeKeyLoop_of_not_seen {α κ : Type} [DecidableEq κ] (key : α → κ) :
    ∀ (seen : List κ) (l : List α) (x : α),
      x ∈ l → key x ∉ seen → (∃ y ∈ dedupeKeyLoop key seen l, key y = key x) := by
  intro seen l
  induction l generalizing seen with
  | nil => intro x hx; simp at hx
  | cons a rest ih =>
    intro x hx hns
    simp only [dedupeKeyLoop]
    rcases List.mem_cons.mp hx with h | h
    · subst h
      split
      · exact absurd (by assumption) hns
      · exact ⟨x, by simp⟩
    · split
      · exact ih seen x h hns
      · by_cases hk : key x = key a
        · exact ⟨a, by simp, hk.symm⟩
        · obtain ⟨y, hy, hky⟩ := ih (key a :: seen) x h (by simp [hk, hns])
          exact ⟨y, List.mem_cons_of_mem _ hy, hky⟩

/-! ### Exact Shannon-entropy comparisons

`validation_analyzer._shannon_entropy` computes
`H(s) = -sum (c_i / L) * log2 (c_i / L)` over the character counts `c_i`
of the string `s` (`L = len(s)`, `H("") = 0`) and the analyzer compares
`H` against rational thresholds (2.5, 4.5, 3.0).  Rearranging,
`H = log2 L - (1/L) * sum c_i * log2 c_i`, so for a threshold `p/q`:

`H < p/q  iff  q*(L*log2 L - sum c_i*log2 c_i) < p*L
        iff  L^(q*L) < 2^(p*L) * prod c_i^(q*c_i)`

which is a decidable comparison of natural numbers.  The float
computation in the source is modelled by this exact real comparison. -/

/-- Counts of each distinct character of `l` (the multiset `collections.Counter(l).values()`). -/
def charCounts (l : List Char) : List Nat :=
  l.dedup.map (fun c => l.count c)

/-- The product `prod c_i^(q*c_i)` over the character counts of `l`. -/
def entPowProd (l : List Char) (q : Nat) : Nat :=
  (charCounts l).foldl (fun acc c => acc * c ^ (q * c)) 1

/-- Decides `shannon_entropy s < p/q` (exactly, see the derivation above). -/
def entropyLtB (s : String) (p q : Nat) : Bool :=
  let l := s.data
  let L := l.length
  if L = 0 then decide (0 < p)
  else decide (L ^ (q * L) < 2 ^ (p * L) * entPowProd l q)

/-- Decides `shannon_entropy s > p/q` (exactly, see the derivation above). -/
def entropyGtB (s : String) (p q : Nat) : Bool :=
  let l := s.data
  let L := l.length
  if L = 0 then false
  else decide (2 ^ (p * L) * entPowProd l q < L ^ (q * L))

/-! ### CPython `base64.b64decode` (non-strict mode) -/

/-- Value of a base64 alphabet character. -/
def b64Val (c : Char) : Option Nat :=
  let n := c.toNat
  if 65 ≤ n ∧ n ≤ 90 then some (n - 65)
  else if 97 ≤ n ∧ n ≤ 122 then some (n - 71)
  else if 48 ≤ n ∧ n ≤ 57 then some (n + 4)
  else if n = 43 then some 62
  else if n = 47 then some 63
  else none

/-- Three output bytes of one full base64 quad. -/
def b64EmitQuad (a b c d : Nat) : List Nat :=
  [a * 4 + b / 16, (b % 16) * 16 + c / 4, (c % 4) * 64 + d]

/-- Bytes flushed from a partial final quad when a completed padding
sequence stops decoding: two digits yield one byte, three digits two. -/
def b64FlushPartial : List Nat → List Nat
  | [a, b] => [a * 4 + b / 16]
  | [a, b, c] => [a * 4 + b / 16, (b % 16) * 16 + c / 4]
  | _ => []

/-- The character loop of CPython `binascii.a2b_base64` in non-strict
mode (what `base64.b64decode(s)` runs): walk the input with a quad
buffer and a pad counter; a non-alphabet character is skipped; a data
character resets the pad counter, joins the quad, and a full quad emits
three bytes; a `'='` with fewer than two quad digits is skipped,
otherwise it bumps the pad counter and — once quad digits plus pads
reach four — decoding stops, flushing the partial quad and ignoring all
remaining input (so discontinuous padding is allowed, and data may
resume after a lone pad).  At end of input a non-empty quad is an error
(`none`, where CPython raises `binascii.Error`). -/
def b64Loop : List Char → List Nat → Nat → List Nat → Option (List Nat)
  | [], quad, _, acc => if quad.length = 0 then some acc else none
  | ch :: rest, quad, pads, acc =>
    if ch = '=' then
      if 2 ≤ quad.length then
        if 4 ≤ quad.length + (pads + 1) then some (acc ++ b64FlushPartial quad)
        else b64Loop rest quad (pads + 1) acc
      else b64Loop rest quad pads acc
    else
      match b64Val ch with
      | none => b64Loop rest quad pads acc
      | some v =>
        match quad with
        | [a, b, c] => b64Loop rest [] 0 (acc ++ b64EmitQuad a b c v)
        | _ => b64Loop rest (quad ++ [v]) 0 acc

/-- CPython `base64.b64decode(s)` with `validate=False` (the default
used by the analyzer); `none` models `binascii.Error`. -/
def pyB64Decode (raw : List Char) : Option (List Nat) :=
  b64Loop raw [] 0 []

/-! ### `bytes.decode("utf-8")` -/

/-- Is `b` a UTF-8 continuation byte? -/
def utf8Cont (b : Nat) : Bool := 128 ≤ b ∧ b ≤ 191

/-- Strict UTF-8 decoding of a byte list (CPython `bytes.decode("utf-8")`);
`none` models `UnicodeDecodeError`. -/
def utf8Decode : List Nat → Option (List Char)
  | [] => some []
  | b :: rest =>
    if b < 128 then
      (utf8Decode rest).map (fun cs => Char.ofNat b :: cs)
    else if 194 ≤ b ∧ b ≤ 223 then
      match rest with
      | c1 :: rest1 =>
        if utf8Cont c1 then
          (utf8Decode rest1).map (fun cs => Char.ofNat ((b - 192) * 64 + (c1 - 128)) :: cs)
        else none
      | [] => none
    else if 224 ≤ b ∧ b ≤ 239 then
      match rest with
      | c1 :: c2 :: rest2 =>
        if utf8Cont c1 ∧ utf8Cont c2 ∧ (b ≠ 224 ∨ 160 ≤ c1) ∧ (b ≠ 237 ∨ c1 ≤ 159) then
          (utf8Decode rest2).map
            (fun cs => Char.ofNat ((b - 224) * 4096 + (c1 - 128) * 64 + (c2 - 128)) :: cs)
        else none
      | _ => none
    else if 240 ≤ b ∧ b ≤ 244 then
      match rest with
      | c1 :: c2 :: c3 :: rest3 =>
        if utf8Cont c1 ∧ utf8Cont c2 ∧ utf8Cont c3 ∧
            (b ≠ 240 ∨ 144 ≤ c1) ∧ (b ≠ 244 ∨ c1 ≤ 143) then
          (utf8Decode rest3).map
            (fun cs =>
              Char.ofNat ((b - 240) * 262144 + (c1 - 128) * 4096 + (c2 - 128) * 64 + (c3 - 128)) :: cs)
        else none
      | _ => none
    else none

/-! ### A model of Python `json.loads`

`PyJson` mirrors the values `json.loads` can return; numbers keep their
source text, since the analyzer only ever asks whether the parse result
is a `dict` or a `list`.  The recursive-descent parser is fueled; the
fuel supplied by `jsonLoads` always suffices (two units per input
character).  Numbers follow CPython's scanner regex (single leading
zero, complete fraction/exponent groups only) and the out-of-spec
constants `NaN` / `Infinity` / `-Infinity` are accepted, as CPython's
default scanner does.  The one remaining divergence: `\uXXXX`
surrogate pairs are not combined into one character — this changes only
the character values inside parsed strings, never whether a parse
succeeds or what shape (object/array/...) it returns. -/

inductive PyJson where
  | null : PyJson
  | tru : PyJson
  | fls : PyJson
  | num : String → PyJson
  | str : String → PyJson
  | arr : List PyJson → PyJson
  | obj : List (String × PyJson) → PyJson

/-- Left curly bracket character. -/
def jLCub : Char := Char.ofNat 123
/-- Right curly bracket character. -/
def jRCub : Char := Char.ofNat 125
/-- Left square bracket character. -/
def jLSqb : Char := Char.ofNat 91
/-- Right square bracket character. -/
def jRSqb : Char := Char.ofNat 93
/-- Double-quote character. -/
def jDQuote : Char := Char.ofNat 34
/-- Backslash character. -/
def jBSlash : Char := Char.ofNat 92

/-- JSON insignificant whitespace. -/
def jsonSkipWs (l : List Char) : List Char :=
  l.dropWhile (fun c => c = ' ' ∨ c = '\t' ∨ c = '\n' ∨ c = '\r')

/-- Hex digit value. -/
def hexDigitVal (c : Char) : Option Nat :=
  let n := c.toNat
  if 48 ≤ n ∧ n ≤ 57 then some (n - 48)
  else if 97 ≤ n ∧ n ≤ 102 then some (n - 87)
  else if 65 ≤ n ∧ n ≤ 70 then some (n - 55)
  else none

/-- One-character JSON string escapes. -/
def jsonEscChar (c : Char) : Option Char :=
  if c = jDQuote then some jDQuote
  else if c = jBSlash then some jBSlash
  else if c = '/' then some '/'
  else if c = 'b' then some (Char.ofNat 8)
  else if c = 'f' then some (Char.ofNat 12)
  else if c = 'n' then some (Char.ofNat 10)
  else if c = 'r' then some (Char.ofNat 13)
  else if c = 't' then some (Char.ofNat 9)
  else none

/-- Parse the body of a JSON string (the opening quote already consumed);
returns the contents and the input remaining after the closing quote. -/
def parseJStr : Nat → List Char → Option (List Char × List Char)
  | 0, _ => none
  | _ + 1, [] => none
  | f + 1, c :: rest =>
    if c = jDQuote then some ([], rest)
    else if c = jBSlash then
      match rest with
      | [] => none
      | e :: rest2 =>
        if e = 'u' then
          match (rest2.take 4).mapM hexDigitVal with
          | some ds =>
            if ds.length = 4 then
              (parseJStr f (rest2.drop 4)).map
                (fun p => (Char.ofNat (ds.foldl (fun a d => a * 16 + d) 0) :: p.1, p.2))
            else none
          | none => none
        else
          match jsonEscChar e with
          | some ec => (parseJStr f rest2).map (fun p => (ec :: p.1, p.2))
          | none => none
    else if c.toNat < 32 then none
    else (parseJStr f rest).map (fun p => (c :: p.1, p.2))

/-- Parse a JSON number token exactly as CPython's scanner regex
`(-?(?:0|[1-9]\d*))(\.\d+)?([eE][-+]?\d+)?` does: an optional minus,
then either a single `0` or a nonzero-led digit run, then an optional
fraction and exponent (each only consumed when complete); the text and
the rest are returned, leftover digits after a leading zero are left
for the surrounding parser to choke on, as in CPython. -/
def parseJNum (l : List Char) : Option (List Char × List Char) :=
  let (neg, l1) : List Char × List Char :=
    match l with
    | '-' :: t => (['-'], t)
    | _ => ([], l)
  let (ds, l2) : List Char × List Char :=
    match l1 with
    | '0' :: t => (['0'], t)
    | c :: _ =>
      if c.isDigit then (l1.takeWhile Char.isDigit, l1.dropWhile Char.isDigit)
      else ([], l1)
    | [] => ([], l1)
  if ds = [] then none
  else
    let (frac, l3) : List Char × List Char :=
      match l2 with
      | '.' :: t =>
        let fs := t.takeWhile Char.isDigit
        if fs = [] then ([], l2) else ('.' :: fs, t.dropWhile Char.isDigit)
      | _ => ([], l2)
    let (ex, l4) : List Char × List Char :=
      match l3 with
      | e :: t =>
        if e = 'e' ∨ e = 'E' then
          let (sgn, t1) : List Char × List Char :=
            match t with
            | s :: t2 => if s = '+' ∨ s = '-' then ([s], t2) else ([], t)
            | [] => ([], t)
          let es := t1.takeWhile Char.isDigit
          if es = [] then ([], l3) else (e :: (sgn ++ es), t1.dropWhile Char.isDigit)
        else ([], l3)
      | [] => ([], l3)
    some (neg ++ ds ++ frac ++ ex, l4)

mutual

/-- Parse one JSON value, returning it and the remaining input. -/
def parseJVal : Nat → List Char → Option (PyJson × List Char)
  | 0, _ => none
  | f + 1, l =>
    match jsonSkipWs l with
    | [] => none
    | c :: rest =>
      if c = jDQuote then
        match parseJStr f rest with
        | some (s, r) => some (PyJson.str (String.mk s), r)
        | none => none
      else if c = jLCub then
        match jsonSkipWs rest with
        | d :: rest2 =>
          if d = jRCub then some (PyJson.obj [], rest2)
          else parseJMembers f [] (d :: rest2)
        | [] => none
      else if c = jLSqb then
        match jsonSkipWs rest with
        | d :: rest2 =>
          if d = jRSqb then some (PyJson.arr [], rest2)
          else parseJItems f [] (d :: rest2)
        | [] => none
      else if c = 't' then
        if rest.take 3 = ['r', 'u', 'e'] then some (PyJson.tru, rest.drop 3) else none
      else if c = 'f' then
        if rest.take 4 = ['a', 'l', 's', 'e'] then some (PyJson.fls, rest.drop 4) else none
      else if c = 'n' then
        if rest.take 3 = ['u', 'l', 'l'] then some (PyJson.null, rest.drop 3) else none
      else if c = 'N' then
        if rest.take 2 = ['a', 'N'] then some (PyJson.num "NaN", rest.drop 2) else none
      else if c = 'I' then
        if rest.take 7 = "nfinity".data then some (PyJson.num "Infinity", rest.drop 7)
        else none
      else if c = '-' ∧ rest.take 8 = "Infinity".data then
        some (PyJson.num "-Infinity", rest.drop 8)
      else
        match parseJNum (c :: rest) with
        | some (ds, r) => some (PyJson.num (String.mk ds), r)
        | none => none

/-- Parse the members of a JSON object after its opening brace. -/
def parseJMembers : Nat → List (String × PyJson) → List Char → Option (PyJson × List Char)
  | 0, _, _ => none
  | f + 1, acc, l =>
    match jsonSkipWs l with
    | [] => none
    | c :: rest =>
      if c = jDQuote then
        match parseJStr f rest with
        | some (k, r1) =>
          match jsonSkipWs r1 with
          | ':' :: r2 =>
            match parseJVal f r2 with
            | some (v, r3) =>
              match jsonSkipWs r3 with
              | ',' :: r4 => parseJMembers f (acc ++ [(String.mk k, v)]) r4
              | e :: r4 =>
                if e = jRCub then some (PyJson.obj (acc ++ [(String.mk k, v)]), r4) else none
              | [] => none
            | none => none
          | _ => none
        | none => none
      else none

/-- Parse the items of a JSON array after its opening bracket. -/
def parseJItems : Nat → List PyJson → List Char → Option (PyJson × List Char)
  | 0, _, _ => none
  | f + 1, acc, l =>
    match parseJVal f l with
    | some (v, r1) =>
      match jsonSkipWs r1 with
      | ',' :: r2 => parseJItems f (acc ++ [v]) r2
      | e :: r2 => if e = jRSqb then some (PyJson.arr (acc ++ [v]), r2) else none
      | [] => none
    | none => none

end

/-- Python `json.loads` on a character list: parse one value and require
only whitespace to remain. -/
def jsonLoads (l : List Char) : Option PyJson :=
  match parseJVal (2 * l.length + 8) l with
  | some (v, r) => if jsonSkipWs r = [] then some v else none
  | none => none

/-! ### `app/utils/validation_analyzer.py` — ValidationAnalyzer -/

/-- The validation result built by `ValidationAnalyzer._result`.  The
`metadata` bag of the source (lengths, float entropies, decode hints) is
informational only and is not modelled; no claim depends on it. -/
structure VRes where
  label : String
  confidence : Int
  reason : String
deriving DecidableEq

/-- `ValidationAnalyzer._result`: clamps confidence into `[0, 100]`. -/
def mkResult (label : String) (confidence : Int) (reason : String) : VRes :=
  ⟨label, min 100 (max 0 confidence), reason⟩

/-- `ValidationAnalyzer.MIN_LENGTHS.get(label, MIN_LENGTHS["generic"])`. -/
def pyMinLength (label : String) : Nat :=
  if label = "jwt" then 32
  else if label = "api_key" then 16
  else if label = "oauth" then 20
  else if label = "private_key" then 64
  else 10

/-- `ValidationAnalyzer._looks_like_jwt`: two periods and length over 30. -/
def looksLikeJwt (text : String) : Bool :=
  text.data.count '.' = 2 ∧ text.length > 30

/-- `ValidationAnalyzer._safe_b64_decode_json`: normalize base64url to
base64, pad with `'='` to the next multiple of 4 (note: a length that is
already a multiple of 4 receives four padding characters, which CPython's
non-strict decoder tolerates), base64-decode, UTF-8-decode, JSON-parse;
`none` models any exception. -/
def safeB64DecodeJson (s : List Char) : Option PyJson :=
  let s1 := s.map (fun c => if c = '-' then '+' else if c = '_' then '/' else c)
  let padded := s1 ++ List.replicate (4 - s1.length % 4) '='
  ((pyB64Decode padded).bind utf8Decode).bind jsonLoads

/-- The seven standard JWT claims recognized by the analyzer. -/
def stdClaims : List String := ["iss", "sub", "aud", "exp", "iat", "nbf", "jti"]

/-- Keys of a Python dict built from an association list with possibly
repeated keys: first occurrences, in insertion order. -/
def pyObjKeys (fields : List (String × PyJson)) : List String :=
  pyDedup (fields.map (fun p => p.1))

/-- `ValidationAnalyzer._validate_jwt`.  A parsed header/payload that is
not a non-empty JSON object (CPython: falsy or not a `dict`) is
rejected with confidence 100; otherwise confidence starts at 85, +2 per
standard claim present in the payload, −20 if the signature's character
entropy is below 3.0 bits, capped at 95.  (The source's unreachable
`except ValueError` branch is not modelled: `_safe_b64_decode_json`
catches all exceptions itself.) -/
def validateJwt (token : String) : VRes :=
  let parts := pySplit '.' token.data
  if parts.length ≠ 3 then
    mkResult "invalid" 100 "Malformatted JWT: Incorrect number of segments"
  else
    let headerB64 := parts.getD 0 []
    let payloadB64 := parts.getD 1 []
    let signatureB64 := parts.getD 2 []
    if headerB64 = [] ∨ payloadB64 = [] then
      mkResult "invalid" 100 "Malformatted JWT: Empty header or payload"
    else
      match safeB64DecodeJson headerB64 with
      | some (PyJson.obj (_ :: _)) =>
        match safeB64DecodeJson payloadB64 with
        | some (PyJson.obj (f :: fs)) =>
          let detectedClaims := (pyObjKeys (f :: fs)).filter (fun k => k ∈ stdClaims)
          let confidence : Int := 85 +
            (if detectedClaims ≠ [] then 2 * detectedClaims.length else 0)
          let confidence := confidence -
            (if entropyLtB (String.mk signatureB64) 3 1 then 20 else 0)
          let confidence := if confidence > 95 then 95 else confidence
          mkResult "valid" confidence "Structurally valid JWT"
        | _ => mkResult "invalid" 100 "JWT Payload is not a valid JSON object"
      | _ => mkResult "invalid" 100 "JWT Header is not a valid JSON object"

/-- Outcome of one `dns.resolver.resolve` call: records found, a
`NoAnswer`/`NXDOMAIN` signal, or any other exception (timeout,
connection failure, ...). -/
inductive DnsAnswer where
  | found : DnsAnswer
  | noRecord : DnsAnswer
  | err : DnsAnswer
deriving DecidableEq

/-- The DNS environment `_validate_email` runs against: whether the
resolver library imported, and what the MX / A lookups would do. -/
structure DnsEnv where
  available : Bool
  mx : DnsAnswer
  a : DnsAnswer

/-- Domain part used by `_validate_email`: `email.split('@')[1]`,
verbatim (unlike the OSINT rules' domain check, the validator neither
lowercases nor strips it). -/
def emailDomain (email : String) : String :=
  String.mk ((pySplit '@' email.data).getD 1 [])

/-- `ValidationAnalyzer._validate_email`.  Control flow of the source:
the two inner `except` handlers swallow every resolver exception, so an
MX lookup error (timeout included) falls through to the `invalid`/90
"no MX or A records" return; the outer `except` returning `likely`/40
is unreachable from resolver exceptions and has no corresponding case. -/
def validateEmail (env : DnsEnv) (email : String) : VRes :=
  let parts := pySplit '@' email.data
  if parts.length ≠ 2 then mkResult "invalid" 100 "Invalid email format"
  else
    let domain := emailDomain email
    if ¬ env.available then
      mkResult "likely" 50 "Email structure valid (DNS check skipped)"
    else
      match env.mx with
      | DnsAnswer.found => mkResult "likely" 90 ("Valid MX records for " ++ domain)
      | DnsAnswer.noRecord =>
        match env.a with
        | DnsAnswer.found =>
          mkResult "likely" 70 ("No MX but valid A record for " ++ domain)
        | _ => mkResult "invalid" 90 ("Domain " ++ domain ++ " has no MX or A records")
      | DnsAnswer.err =>
        mkResult "invalid" 90 ("Domain " ++ domain ++ " has no MX or A records")

/-- Python `re.match(r"^[A-Za-z0-9+/=]+$", s)`: a non-empty run of
base64-alphabet characters spanning the whole string — where `$` also
matches just before one final trailing newline, as in `re` without
`re.M`. -/
def b64ShapeMatch (l : List Char) : Bool :=
  let body := if l.getLast? = some (Char.ofNat 10) then l.dropLast else l
  body ≠ [] ∧ body.all (fun c => (b64Val c).isSome ∨ c = '=')

/-- The base64 branch of `_validate_generic_token` ends in an early
`valid`/80 return iff the token matches the base64 shape regex and its
length (newline included, as in `len(token)`) is a multiple of 4, the
non-strict decode succeeds, the decoded bytes contain both
curly-bracket bytes, and the bytes UTF-8-decode to text that
`json.loads` parses as a dict or a list. -/
def b64JsonHit (token : String) : Bool :=
  let l := token.data
  if b64ShapeMatch l ∧ l.length % 4 = 0 then
    match pyB64Decode l with
    | some bytes =>
      if 123 ∈ bytes ∧ 125 ∈ bytes then
        match (utf8Decode bytes).bind jsonLoads with
        | some (PyJson.obj _) => true
        | some (PyJson.arr _) => true
        | _ => false
      else false
    | none => false
  else false

/-- The entropy rules that close `_validate_generic_token`: long
(>20 chars) low-entropy (<2.5) tokens are `invalid`/80, entropy above
4.5 is `likely`/70, otherwise `likely`/50. -/
def entropyVerdict (token : String) : VRes :=
  if entropyLtB token 5 2 ∧ token.length > 20 then
    mkResult "invalid" 80 "Entropy too low for secret material"
  else if entropyGtB token 9 2 then
    mkResult "likely" 70 "High entropy string"
  else
    mkResult "likely" 50 "Plausible length and chars"

/-- `ValidationAnalyzer._validate_generic_token`: length gate, the
base64 branch (whose embedded-JSON check returns `valid`/80 early; its
printable-ratio computation only fills metadata and is not modelled),
then the entropy rules. -/
def validateGenericToken (token : String) (label : String) : VRes :=
  let length := token.length
  let minLen := pyMinLength label
  if length < minLen then
    mkResult "invalid" 90
      ("Token too short (len=" ++ toString length ++ ", min=" ++ toString minLen ++ ")")
  else if b64JsonHit token then
    mkResult "valid" 80 "Base64 decoded to valid JSON"
  else
    entropyVerdict token

/-- Scan for a `'.'` with a non-`'@'` character after it, crossing only
non-`'@'` characters; the tail-matching step of the email shape regex. -/
def dotSearch : List Char → Bool
  | [] => false
  | c :: rest =>
    if c = '@' then false
    else if c = '.' then
      match rest with
      | d :: _ => if d ≠ '@' then true else dotSearch rest
      | [] => dotSearch rest
    else dotSearch rest

/-- Python `re.match(r"[^@]+@[^@]+\.[^@]+", s)` (an anchored prefix
match): a non-empty `'@'`-free run, an `'@'`, then a non-empty
`'@'`-free run containing a later `'.'` followed by a non-`'@'`
character. -/
def emailShapeMatch (s : List Char) : Bool :=
  let pre := s.takeWhile (fun c => c ≠ '@')
  if pre = [] then false
  else
    match s.drop pre.length with
    | c :: t => if c = '@' then (match t with
        | [] => false
        | d :: rest => if d = '@' then false else dotSearch rest) else false
    | [] => false

/-- `ValidationAnalyzer.analyze`: empty-candidate gate, then dispatch to
the JWT, email or generic validator.  The DNS environment stands for the
module-level `DNS_AVAILABLE` flag and resolver behaviour. -/
def analyze (env : DnsEnv) (secretCandidate : String) (secretType : String) : VRes :=
  if secretCandidate = "" then mkResult "invalid" 0 "Empty secret"
  else
    let ty := pyLower secretType
    if strContains ty "jwt" ∨ looksLikeJwt secretCandidate then
      validateJwt secretCandidate
    else if (strContains ty "email" ∨ secretCandidate.data.contains '@') ∧
        emailShapeMatch secretCandidate.data then
      validateEmail env secretCandidate
    else
      validateGenericToken secretCandidate ty

/-! ### Claims C4, C6, C7, C10 — validation analyzer -/

/-- C4 (counterexample): the base64 decode step of
`_validate_generic_token` is not informational-only.  The generic token
`"eyJhIjoxfQ=="` passes the length gate, its entropy rules alone would
yield `likely`/50, yet the analyzer returns `valid`/80 because the token
base64-decodes to an embedded JSON object. -/
theorem c4_base64_counterexample :
    (validateGenericToken "eyJhIjoxfQ==" "generic").label = "valid" ∧
    (validateGenericToken "eyJhIjoxfQ==" "generic").confidence = 80 ∧
    entropyVerdict "eyJhIjoxfQ==" = mkResult "likely" 50 "Plausible length and chars" ∧
    validateGenericToken "eyJhIjoxfQ==" "generic" ≠ entropyVerdict "eyJhIjoxfQ==" := by
  decide

/-- C4 (amended): for every generic token candidate that passes the
type-specific minimum-length check, the label and confidence are
determined by the entropy rules unless the token is base64-shaped,
quad-aligned and decodes to JSON parsing as a dict or list, in which
case the result is `valid`/80; the rest of the base64 step contributes
metadata only. -/
theorem c4_generic_token_amended (token label : String)
    (h : ¬ token.length < pyMinLength label) :
    ((validateGenericToken token label).label, (validateGenericToken token label).confidence) =
      if b64JsonHit token then ("valid", (80 : Int))
      else ((entropyVerdict token).label, (entropyVerdict token).confidence) := by
  unfold validateGenericToken
  rw [if_neg h]
  by_cases hb : b64JsonHit token
  · simp [hb, mkResult]
  · simp [hb]

/-- C4 witness: the amended theorem applied at the concrete counterexample token. -/
theorem c4_generic_token_amended_witness :
    (¬ "eyJhIjoxfQ==".length < pyMinLength "generic") ∧
    ((validateGenericToken "eyJhIjoxfQ==" "generic").label,
      (validateGenericToken "eyJhIjoxfQ==" "generic").confidence) =
      if b64JsonHit "eyJhIjoxfQ==" then ("valid", (80 : Int))
      else ((entropyVerdict "eyJhIjoxfQ==").label, (entropyVerdict "eyJhIjoxfQ==").confidence) :=
  ⟨by decide, c4_generic_token_amended "eyJhIjoxfQ==" "generic" (by decide)⟩

/-- C6: a non-empty string declared as type `jwt` with zero or one `'.'`
separators does not split into three segments, so the analyzer returns
`invalid` with confidence 100. -/
theorem c6_jwt_malformed (env : DnsEnv) (s : String) (hne : s ≠ "")
    (hdots : s.data.count '.' ≤ 1) :
    analyze env s "jwt" =
      mkResult "invalid" 100 "Malformatted JWT: Incorrect number of segments" := by
  unfold analyze
  rw [if_neg hne, if_pos (Or.inl (by decide))]
  unfold validateJwt
  rw [if_pos]
  rw [pySplit_length]
  omega

/-- C6 witness: the malformed-JWT theorem at the concrete input `"abc"`. -/
theorem c6_jwt_malformed_witness :
    ("abc" ≠ "" ∧ "abc".data.count '.' ≤ 1) ∧
    analyze ⟨false, DnsAnswer.found, DnsAnswer.found⟩ "abc" "jwt" =
      mkResult "invalid" 100 "Malformatted JWT: Incorrect number of segments" :=
  ⟨⟨by decide, by decide⟩, c6_jwt_malformed ⟨false, DnsAnswer.found, DnsAnswer.found⟩ "abc"
    (by decide) (by decide)⟩

/-- C7 (counterexample): an email validated while the resolver is
available but the MX lookup raises (timeout / failure) yields
`invalid`/90 — the exception is swallowed by the inner blanket `except`
and control reaches the "no MX or A records" return — not the neutral
`likely`/50 the claim states for failed lookups. -/
theorem c7_dns_counterexample :
    (validateEmail ⟨true, DnsAnswer.err, DnsAnswer.err⟩ "bob@example.com").label = "invalid" ∧
    (validateEmail ⟨true, DnsAnswer.err, DnsAnswer.err⟩ "bob@example.com").confidence = 90 ∧
    validateEmail ⟨true, DnsAnswer.err, DnsAnswer.err⟩ "bob@example.com" ≠
      mkResult "likely" 50 "Email structure valid (DNS check skipped)" := by
  decide

/-- C7 (amended): with the resolver library unavailable the analyzer
returns the neutral structure-only `likely`/50; but when the resolver is
available and the MX lookup itself fails or times out, the inner
exception handlers swallow the error and the result is `invalid`/90
("no MX or A records") — the source's `likely`/40 "DNS check
failed/timeout" handler is unreachable from resolver exceptions. -/
theorem c7_dns_amended (mx a : DnsAnswer) (e : String) (h : e.data.count '@' = 1) :
    validateEmail ⟨false, mx, a⟩ e =
      mkResult "likely" 50 "Email structure valid (DNS check skipped)" ∧
    validateEmail ⟨true, DnsAnswer.err, a⟩ e =
      mkResult "invalid" 90 ("Domain " ++ emailDomain e ++ " has no MX or A records") := by
  have hparts : (pySplit '@' e.data).length = 2 := by
    rw [pySplit_length, h]
  constructor <;> simp [validateEmail, hparts]

/-- C7 witness: the amended theorem at the concrete email `"bob@example.com"`. -/
theorem c7_dns_amended_witness :
    ("bob@example.com".data.count '@' = 1) ∧
    (validateEmail ⟨false, DnsAnswer.found, DnsAnswer.found⟩ "bob@example.com" =
      mkResult "likely" 50 "Email structure valid (DNS check skipped)" ∧
    validateEmail ⟨true, DnsAnswer.err, DnsAnswer.found⟩ "bob@example.com" =
      mkResult "invalid" 90
        ("Domain " ++ emailDomain "bob@example.com" ++ " has no MX or A records")) :=
  ⟨by decide, c7_dns_amended DnsAnswer.found DnsAnswer.found "bob@example.com" (by decide)⟩

/-- C10: for every declared secret type (and any DNS environment), the
analyzer called on the empty string returns `invalid` with confidence 0
and reason "Empty secret", before any type-specific dispatch. -/
theorem c10_empty_secret (env : DnsEnv) (secretType : String) :
    analyze env "" secretType = mkResult "invalid" 0 "Empty secret" := by
  unfold analyze
  rw [if_pos rfl]

/-- C10 witness: the empty-secret theorem at a concrete type and environment. -/
theorem c10_empty_secret_witness :
    analyze ⟨true, DnsAnswer.found, DnsAnswer.found⟩ "" "api_key" =
      mkResult "invalid" 0 "Empty secret" :=
  c10_empty_secret ⟨true, DnsAnswer.found, DnsAnswer.found⟩ "api_key"

/-! ### `app/osint/rules.py` and `app/osint/correlator.py` -/

/-- The reference datasets loaded by `app/osint/loader.py` (`OSINT_DATA`);
modelled as an explicit parameter, as the repository's tests do by
patching `OSINT_DATA` with mock data. -/
structure OsintData where
  sensitiveFiles : List String
  disposableDomains : List String
  freeDomains : List String
  breachedOrgDomains : List String
  adminPaths : List String
  cloudFingerprints : List (String × List String)

/-- `osint.rules.check_sensitive_file`: the lowered basename
(`path.split('/')[-1]`) is looked up in the sensitive-file set. -/
def check_sensitive_file (data : OsintData) (path : String) : Bool :=
  if path = "" then false
  else String.mk (((pySplit '/' path.data).getLastD []).map Char.toLower) ∈ data.sensitiveFiles

/-- `osint.rules.check_admin_path`: strip slashes from both ends, split
into path segments, drop empties, lowercase, and test each full segment
for membership in the admin-path set (never a substring test). -/
def check_admin_path (data : OsintData) (path : String) : Bool :=
  if path = "" then false
  else
    let cleaned := pyStripChar '/' path.data
    let parts := ((pySplit '/' cleaned).filter (fun p => p ≠ [])).map
      (fun p => String.mk (p.map Char.toLower))
    parts.any (fun p => p ∈ data.adminPaths)

/-- `osint.rules.check_email_domain`: classify the domain after the first
`'@'` as disposable, breached_org or free; `none` when unclassified or
malformed.  Returns `(domain_type, domain)`. -/
def check_email_domain (data : OsintData) (email : String) : Option (String × String) :=
  if email = "" ∨ ¬ email.data.contains '@' then none
  else
    let domain := String.mk (pyStripWs (((pySplit '@' email.data).getD 1 []).map Char.toLower))
    if domain ∈ data.disposableDomains then some ("disposable", domain)
    else if domain ∈ data.breachedOrgDomains then some ("breached_org", domain)
    else if domain ∈ data.freeDomains then some ("free", domain)
    else none

/-- Insertion into a sorted list of strings. -/
def insertSorted (s : String) : List String → List String
  | [] => [s]
  | x :: xs => if s ≤ x then s :: x :: xs else x :: insertSorted s xs

/-- Sort a list of strings (Python `sorted`). -/
def sortStrings (l : List String) : List String := l.foldr insertSorted []

/-- `osint.rules.detect_cloud_provider`: build the lowered search space
from header keys/values, crawled URLs and those JS entries that are
`http...` URLs (JS body content is never scanned), then collect every
provider one of whose indicators occurs as a substring of some entry;
the result is the sorted deduplicated provider name list. -/
def detect_cloud_provider (data : OsintData) (headers : List (String × String))
    (urls jsFiles : List String) : List String :=
  let searchSpace :=
    headers.flatMap (fun kv => [pyLower kv.1, pyLower kv.2]) ++
    urls.map pyLower ++
    (jsFiles.filter (fun j => strStartsWith j "http")).map pyLower
  let providers := (data.cloudFingerprints.filter
    (fun pi => pi.2.any (fun ind => searchSpace.any (fun entry => strContains entry ind)))).map
    (fun pi => pi.1)
  sortStrings (pyDedup providers)

/-- One finding as read by `correlator.correlate`: the fields it accesses
with `.get`, missing strings modelled as `""` and a missing secret as
`none` (matching Python falsiness). -/
structure CFinding where
  url : String
  source_file : String
  excerpt : String
  category : String
  secret : Option String
  reuse_count : Nat

/-- Check (1) of the correlator: sensitive file on URL or source path. -/
def osintB1 (data : OsintData) (f : CFinding) : Bool :=
  check_sensitive_file data f.url || check_sensitive_file data f.source_file

/-- Check (2) of the correlator: admin path on URL or source path. -/
def osintB2 (data : OsintData) (f : CFinding) : Bool :=
  check_admin_path data f.url || check_admin_path data f.source_file

/-- Check (4) of the correlator: sourced from an externally loaded `.js` file. -/
def osintB4 (f : CFinding) : Bool :=
  (f.source_file ≠ "") && strEndsWith f.source_file ".js"

/-- The `metadata["exposure_surface"]` value after checks (1), (2), (4):
each check only fills the field when it is still unset. -/
def exposureSurface (data : OsintData) (f : CFinding) : Option String :=
  let s1 : Option String := if osintB1 data f then some "sensitive_file" else none
  let s2 : Option String := if osintB2 data f ∧ s1 = none then some "admin_path" else s1
  if osintB4 f ∧ s2 = none then some "external_js" else s2

/-- The email candidate of check (3): the secret (or excerpt) for
EMAIL-categorized findings, else the stripped excerpt when it contains
an `'@'` with a dot after the last one; `""` models a falsy candidate. -/
def emailCandidate (f : CFinding) : String :=
  if f.category = "EMAIL" then
    match f.secret with
    | some s => if s = "" then f.excerpt else s
    | none => f.excerpt
  else if f.excerpt.data.contains '@' ∧
      ((pySplit '@' f.excerpt.data).getLastD []).contains '.' then
    String.mk (pyStripWs f.excerpt.data)
  else ""

/-- The domain context computed by check (3), when a candidate exists. -/
def emailDomainCtx (data : OsintData) (f : CFinding) : Option (String × String) :=
  if emailCandidate f ≠ "" then check_email_domain data (emailCandidate f) else none

/-- The labels check (3) contributes. -/
def emailLabels (data : OsintData) (f : CFinding) : List String :=
  match emailDomainCtx data f with
  | some (dt, _) =>
    if dt = "disposable" ∨ dt = "breached_org" then ["HIGH_RISK_DOMAIN_CONTEXT"] else []
  | none => []

/-- Check (5)'s gate: non-empty global provider set and an exposure
surface already recorded on this finding. -/
def osintB5 (data : OsintData) (globalProviders : List String) (f : CFinding) : Bool :=
  (!globalProviders.isEmpty) && (exposureSurface data f).isSome

/-- The OSINT enrichment written onto a finding: ordered deduplicated
labels and the metadata fields (a `none` field models a key omitted by
the metadata cleaning step). -/
structure OsintOut where
  labels : List String
  domain : Option String
  domain_type : Option String
  cloud_provider : Option String
  exposure_surface : Option String

/-- The label list accumulated by checks (1)-(6) of the correlator, in
source order, before the empty-list fallback and the ordered dedup. -/
def osintLabelsRaw (data : OsintData) (globalProviders : List String)
    (f : CFinding) : List String :=
  (if osintB1 data f then ["KNOWN_SENSITIVE_FILE"] else []) ++
  (if osintB2 data f then ["EXPOSED_ADMIN_PATH"] else []) ++
  emailLabels data f ++
  (if osintB4 f then ["PUBLICLY_EXPOSED_ARTIFACT"] else []) ++
  (if osintB5 data globalProviders f then ["INFRASTRUCTURE_FINGERPRINT_EXPOSED"] else []) ++
  (if f.reuse_count > 1 then ["SECRET_REUSE_DETECTED"] else [])

/-- The label list after the `NO_OSINT_SIGNAL` fallback. -/
def osintLabelsFinal (data : OsintData) (globalProviders : List String)
    (f : CFinding) : List String :=
  if osintLabelsRaw data globalProviders f = [] then ["NO_OSINT_SIGNAL"]
  else osintLabelsRaw data globalProviders f

/-- The per-finding body of `correlator.correlate`, given the global
provider set computed once per scan by `detect_cloud_provider`. -/
def correlateFinding (data : OsintData) (globalProviders : List String)
    (f : CFinding) : OsintOut :=
  { labels := pyDedup (osintLabelsFinal data globalProviders f)
    domain := (emailDomainCtx data f).map (fun p => p.2)
    domain_type := (emailDomainCtx data f).map (fun p => p.1)
    cloud_provider :=
      if osintB5 data globalProviders f then
        some (String.intercalate ", " globalProviders)
      else none
    exposure_surface := exposureSurface data f }

theorem mem_pyDedup (x : String) (l : List String) : x ∈ pyDedup l ↔ x ∈ l := by
  constructor
  · exact fun h => mem_dedupeKeyLoop_of_mem id [] l x h
  · intro h
    obtain ⟨y, hy, hk⟩ := mem_dedupeKeyLoop_of_not_seen id [] l x h (by simp)
    simpa [show y = x from hk] using hy

theorem exposureSurface_isSome (data : OsintData) (f : CFinding) :
    (exposureSurface data f).isSome = (osintB1 data f || osintB2 data f || osintB4 f) := by
  unfold exposureSurface
  cases h1 : osintB1 data f <;> cases h2 : osintB2 data f <;> cases h4 : osintB4 f <;> simp

theorem mem_ite_single {b : Prop} [Decidable b] (x y : String) :
    x ∈ (if b then [y] else []) ↔ b ∧ x = y := by
  split <;> simp_all

theorem emailLabels_eq (data : OsintData) (f : CFinding) (x : String)
    (hx : x ∈ emailLabels data f) : x = "HIGH_RISK_DOMAIN_CONTEXT" := by
  unfold emailLabels at hx
  rcases h : emailDomainCtx data f with _ | ⟨dt, d⟩ <;> rw [h] at hx
  · simp at hx
  · split at hx <;> simp_all

theorem mem_osintLabelsRaw (x : String) (data : OsintData) (g : List String)
    (f : CFinding) :
    x ∈ osintLabelsRaw data g f ↔
      (osintB1 data f = true ∧ x = "KNOWN_SENSITIVE_FILE") ∨
      (osintB2 data f = true ∧ x = "EXPOSED_ADMIN_PATH") ∨
      x ∈ emailLabels data f ∨
      (osintB4 f = true ∧ x = "PUBLICLY_EXPOSED_ARTIFACT") ∨
      (osintB5 data g f = true ∧ x = "INFRASTRUCTURE_FINGERPRINT_EXPOSED") ∨
      (f.reuse_count > 1 ∧ x = "SECRET_REUSE_DETECTED") := by
  unfold osintLabelsRaw
  simp only [List.mem_append, mem_ite_single]
  tauto

/-! ### Claims C3 and C5 — OSINT correlator -/

/-- C3: `INFRASTRUCTURE_FINGERPRINT_EXPOSED` is attached only when the
global provider set is non-empty and the finding already carries an
exposure surface from the sensitive-file, admin-path or public-JS
checks — whose labels are attached exactly when those checks fire.  In
particular a finding with non-empty providers but no exposure-surface
label never receives the fingerprint label. -/
theorem c3_osint_gating (data : OsintData) (g : List String) (f : CFinding)
    (h : "INFRASTRUCTURE_FINGERPRINT_EXPOSED" ∈ (correlateFinding data g f).labels) :
    g ≠ [] ∧
      ("KNOWN_SENSITIVE_FILE" ∈ (correlateFinding data g f).labels ∨
       "EXPOSED_ADMIN_PATH" ∈ (correlateFinding data g f).labels ∨
       "PUBLICLY_EXPOSED_ARTIFACT" ∈ (correlateFinding data g f).labels) := by
  have hlab : (correlateFinding data g f).labels =
      pyDedup (osintLabelsFinal data g f) := rfl
  rw [hlab, mem_pyDedup] at h
  unfold osintLabelsFinal at h
  by_cases hraw : osintLabelsRaw data g f = []
  · rw [if_pos hraw] at h
    simp at h
  · rw [if_neg hraw] at h
    have hb5 : osintB5 data g f = true := by
      rw [mem_osintLabelsRaw] at h
      rcases h with ⟨_, h⟩ | ⟨_, h⟩ | h | ⟨_, h⟩ | ⟨hb, _⟩ | ⟨_, h⟩
      · exact absurd h (by decide)
      · exact absurd h (by decide)
      · exact absurd (emailLabels_eq data f _ h) (by decide)
      · exact absurd h (by decide)
      · exact hb
      · exact absurd h (by decide)
    have hgb : (!g.isEmpty) = true ∧ (exposureSurface data f).isSome = true := by
      have hb := hb5
      unfold osintB5 at hb
      exact Bool.and_eq_true_iff.mp hb
    refine ⟨by cases g <;> simp_all, ?_⟩
    have hsurf := hgb.2
    rw [exposureSurface_isSome] at hsurf
    have hmem : ∀ (x : String), x ∈ osintLabelsRaw data g f →
        x ∈ (correlateFinding data g f).labels := by
      intro x hx
      rw [hlab, mem_pyDedup]
      unfold osintLabelsFinal
      rw [if_neg hraw]
      exact hx
    rcases Bool.or_eq_true_iff.mp hsurf with h14 | h4
    · rcases Bool.or_eq_true_iff.mp h14 with h1 | h2
      · exact Or.inl (hmem _ ((mem_osintLabelsRaw _ _ _ _).mpr (Or.inl ⟨h1, rfl⟩)))
      · exact Or.inr (Or.inl (hmem _
          ((mem_osintLabelsRaw _ _ _ _).mpr (Or.inr (Or.inl ⟨h2, rfl⟩)))))
    · exact Or.inr (Or.inr (hmem _
        ((mem_osintLabelsRaw _ _ _ _).mpr
          (Or.inr (Or.inr (Or.inr (Or.inl ⟨h4, rfl⟩)))))))

/-- The mock OSINT reference datasets used by the repository's own
`test_osint.py`. -/
def mockOsintData : OsintData :=
  { sensitiveFiles := ["config.xml", "id_rsa", ".env"]
    disposableDomains := ["trashmail.com", "tempmail.org"]
    freeDomains := ["gmail.com", "yahoo.com"]
    breachedOrgDomains := ["hacked-corp.com"]
    adminPaths := ["admin", "wp-admin", "dashboard"]
    cloudFingerprints :=
      [("aws", ["amazonaws", "cloudfront"]),
       ("azure", ["azure", "windows.net"]),
       ("cloudflare", ["cloudflare"])] }

/-- The first finding of `test_osint.py`'s correlator test: a `.env`
exposure coming with a cloudflare server header. -/
def exampleSensitiveFinding : CFinding :=
  { url := "http://target.com/.env"
    source_file := "http://target.com/.env"
    excerpt := "DB_PASSWORD=123"
    category := "GENERIC"
    secret := none
    reuse_count := 0 }

/-- C3 witness: the gating theorem at the mock datasets, the provider
set detected from a cloudflare header, and the sensitive-file finding. -/
theorem c3_osint_gating_witness :
    ("INFRASTRUCTURE_FINGERPRINT_EXPOSED" ∈
      (correlateFinding mockOsintData
        (detect_cloud_provider mockOsintData [("Server", "cloudflare")] [] [])
        exampleSensitiveFinding).labels) ∧
    (detect_cloud_provider mockOsintData [("Server", "cloudflare")] [] [] ≠ [] ∧
      ("KNOWN_SENSITIVE_FILE" ∈
        (correlateFinding mockOsintData
          (detect_cloud_provider mockOsintData [("Server", "cloudflare")] [] [])
          exampleSensitiveFinding).labels ∨
       "EXPOSED_ADMIN_PATH" ∈
        (correlateFinding mockOsintData
          (detect_cloud_provider mockOsintData [("Server", "cloudflare")] [] [])
          exampleSensitiveFinding).labels ∨
       "PUBLICLY_EXPOSED_ARTIFACT" ∈
        (correlateFinding mockOsintData
          (detect_cloud_provider mockOsintData [("Server", "cloudflare")] [] [])
          exampleSensitiveFinding).labels)) :=
  ⟨by decide,
    c3_osint_gating mockOsintData
      (detect_cloud_provider mockOsintData [("Server", "cloudflare")] [] [])
      exampleSensitiveFinding (by decide)⟩

/-- Admin-path dataset exactly as the claim states it. -/
def claimAdminData : OsintData :=
  { sensitiveFiles := []
    disposableDomains := []
    freeDomains := []
    breachedOrgDomains := []
    adminPaths := ["admin", "wp-admin"]
    cloudFingerprints := [] }

/-- C5 (counterexample): against the dataset `{admin, wp-admin}` the
path `/sub/dashboard` does NOT match the admin-path check — neither of
its segments `sub`, `dashboard` is in the dataset — contradicting the
claim that it must match. -/
theorem c5_dashboard_counterexample :
    check_admin_path claimAdminData "/sub/dashboard" = false := by
  decide

/-- C5 (amended): the admin-path check matches only full path segments:
against `{admin, wp-admin}`, `/content/administration-guide` does not
match and `/wp-admin` does, but `/sub/dashboard` does not match either —
it matches only when `dashboard` is itself in the dataset, as in the
repository's test dataset `{admin, wp-admin, dashboard}`. -/
theorem c5_admin_path_amended :
    check_admin_path claimAdminData "/content/administration-guide" = false ∧
    check_admin_path claimAdminData "/wp-admin" = true ∧
    check_admin_path claimAdminData "/sub/dashboard" = false ∧
    check_admin_path mockOsintData "/sub/dashboard" = true := by
  decide

/-! ### `app/risks/rules.py` and `app/risks/engine.py` — Risk Fusion -/

/-- A finding as read by `risks.rules.calculate_base_score`: the
`category` string, the `validation` sub-document (modelled as a lookup
over its string-valued keys, `none` for an absent key), and the label
list of the `osint` sub-document (`osint.get("labels", [])`). -/
structure RFinding where
  category : String
  validation : String → Option String
  osintLabels : List String

/-- Python `dict.get(key, default)` over the string-valued entries. -/
def dictGetD (d : String → Option String) (k dflt : String) : String :=
  (d k).getD dflt

/-- Python `int(x)` on a rational: truncation toward zero. -/
def pyInt (q : ℚ) : Int :=
  if 0 ≤ q then ⌊q⌋ else ⌈q⌉

/-- `risks.rules.calculate_base_score`: the deterministic rule component.
Returns `(score, severity, factors)`. -/
def calculate_base_score (f : RFinding) : Nat × String × List String :=
  let category := pyUpper f.category
  let validity := pyLower (dictGetD f.validation "validity" "unknown")
  let s1 : Nat := if validity = "active" ∨ validity = "confirmed" then 60
    else if validity = "plausible" then 30 else 0
  let f1 : List String := if validity = "active" ∨ validity = "confirmed" then
      ["Secret is confirmed ACTIVE/VALID"]
    else if validity = "plausible" then ["Secret structure is PLAUSIBLE"] else []
  let catNorm := String.mk (category.data.filter (fun c => c ≠ '_' ∧ c ≠ ' '))
  let criticalCats := ["AWS", "GCP", "AZURE", "SLACK", "STRIPE", "PRIVATEKEY"]
  let highCats := ["DBPASSWORD", "APIKEY", "JWT", "ACCESSKEY", "SECRET"]
  let s2 : Nat := if criticalCats.any (fun c => strContains catNorm c) then 25
    else if highCats.any (fun c => strContains catNorm c) then 15 else 5
  let f2 : List String := if criticalCats.any (fun c => strContains catNorm c) then
      ["Critical Secret Type: " ++ category]
    else if highCats.any (fun c => strContains catNorm c) then
      ["High-Value Secret Type: " ++ category]
    else []
  let s3 : Nat := (if "PUBLICLY_EXPOSED_ARTIFACT" ∈ f.osintLabels then 10 else 0) +
    (if "EXPOSED_ADMIN_PATH" ∈ f.osintLabels then 10 else 0) +
    (if "HIGH_RISK_DOMAIN_CONTEXT" ∈ f.osintLabels then 5 else 0)
  let f3 : List String :=
    (if "PUBLICLY_EXPOSED_ARTIFACT" ∈ f.osintLabels then
      ["Found in public JS file (External Exposure)"] else []) ++
    (if "EXPOSED_ADMIN_PATH" ∈ f.osintLabels then ["Found in Admin/Config path"] else []) ++
    (if "HIGH_RISK_DOMAIN_CONTEXT" ∈ f.osintLabels then
      ["Associated with high-risk domain"] else [])
  let score0 := s1 + s2 + s3
  let score1 := if strContains (pyLower category) "generic" ∧ validity ≠ "confirmed" then
      min score0 40
    else score0
  let score := min 100 (max 10 score1)
  let severity := if score ≥ 80 then "High" else if score ≥ 40 then "Medium" else "Low"
  (score, severity, f1 ++ f2 ++ f3)

/-- The risk record `RiskEngine.assess_risk` attaches to one finding.
The classifier's outputs (`ml_score`, `ml_severity`) are parameters: the
pretrained sklearn ensemble is an external component whose exact numbers
the fusion logic treats as opaque inputs. -/
structure RiskOut where
  score : Int
  severity : String
  factors : List String
  ml_predicted_severity : String
  ml_confidence_score : Int

/-- The per-finding body of `RiskEngine.assess_risk`: rule score, bounded
fusion `final = max(rule, min(rule + 20, ml))`, severity re-derived from
the final score, and the ML-uplift factor when the score rose. -/
def assess_risk_one (f : RFinding) (mlScore : ℚ) (mlSeverity : String) : RiskOut :=
  let ruleScore := (calculate_base_score f).1
  let ruleFactors := (calculate_base_score f).2.2
  let finalScore : ℚ := max (ruleScore : ℚ) (min ((ruleScore : ℚ) + 20) mlScore)
  let finalSeverity := if finalScore ≥ 80 then "High"
    else if finalScore ≥ 40 then "Medium" else "Low"
  let factors := if finalScore > (ruleScore : ℚ) then
      ruleFactors ++
        ["ML Analysis refined risk score (+" ++ toString (pyInt (finalScore - ruleScore)) ++ ")"]
    else ruleFactors
  { score := pyInt finalScore
    severity := finalSeverity
    factors := factors
    ml_predicted_severity := mlSeverity
    ml_confidence_score := pyInt mlScore }

theorem calculate_base_score_ge_10 (f : RFinding) : 10 ≤ (calculate_base_score f).1 := by
  unfold calculate_base_score
  dsimp only
  omega

theorem calculate_base_score_le_100 (f : RFinding) : (calculate_base_score f).1 ≤ 100 := by
  unfold calculate_base_score
  dsimp only
  omega

/-! ### Claims C1 and C2 — risk fusion -/

/-- C1: for every finding and classifier output, the attached score is
`int(max(rule, min(rule + 20, ml)))`; consequently the final score never
drops below the rule score and exceeds it by at most 20. -/
theorem c1_fusion_invariant (f : RFinding) (mlScore : ℚ) (mlSeverity : String) :
    (assess_risk_one f mlScore mlSeverity).score =
      pyInt (max ((calculate_base_score f).1 : ℚ)
        (min (((calculate_base_score f).1 : ℚ) + 20) mlScore)) ∧
    ((calculate_base_score f).1 : Int) ≤ (assess_risk_one f mlScore mlSeverity).score ∧
    (assess_risk_one f mlScore mlSeverity).score - ((calculate_base_score f).1 : Int) ≤ 20 := by
  set r : Nat := (calculate_base_score f).1 with hr
  have hq0 : (0 : ℚ) ≤ (r : ℚ) := by positivity
  set q : ℚ := max (r : ℚ) (min ((r : ℚ) + 20) mlScore) with hqdef
  have hrle : (r : ℚ) ≤ q := le_max_left _ _
  have hqle : q ≤ (r : ℚ) + 20 :=
    max_le (by linarith) (min_le_left _ _)
  have hscore : (assess_risk_one f mlScore mlSeverity).score = pyInt q := rfl
  have hpy : pyInt q = ⌊q⌋ := by
    unfold pyInt
    rw [if_pos (le_trans hq0 hrle)]
  refine ⟨hscore, ?_, ?_⟩
  · rw [hscore, hpy]
    exact_mod_cast Int.le_floor.mpr (by exact_mod_cast hrle)
  · rw [hscore, hpy]
    have : ⌊q⌋ ≤ ⌊(r : ℚ) + 20⌋ := Int.floor_le_floor hqle
    have hrfl : ⌊(r : ℚ) + 20⌋ = (r : Int) + 20 := by
      rw [show ((r : ℚ) + 20) = (((r : Int) + 20 : Int) : ℚ) by push_cast ; ring]
      exact Int.floor_intCast _
    omega

/-- C1 witness: the fusion invariant at a concrete finding and a
concrete classifier score. -/
theorem c1_fusion_invariant_witness :
    (assess_risk_one ⟨"API_KEY", fun _ => none, []⟩ (55 : ℚ) "Medium").score =
      pyInt (max ((calculate_base_score ⟨"API_KEY", fun _ => none, []⟩).1 : ℚ)
        (min (((calculate_base_score ⟨"API_KEY", fun _ => none, []⟩).1 : ℚ) + 20) (55 : ℚ))) ∧
    ((calculate_base_score ⟨"API_KEY", fun _ => none, []⟩).1 : Int) ≤
      (assess_risk_one ⟨"API_KEY", fun _ => none, []⟩ (55 : ℚ) "Medium").score ∧
    (assess_risk_one ⟨"API_KEY", fun _ => none, []⟩ (55 : ℚ) "Medium").score -
      ((calculate_base_score ⟨"API_KEY", fun _ => none, []⟩).1 : Int) ≤ 20 :=
  c1_fusion_invariant ⟨"API_KEY", fun _ => none, []⟩ (55 : ℚ) "Medium"

/-- The validation sub-document the pipeline's Validation stage writes
onto a finding (`validation.py`: `$set {validation: res}` with `res`
from `ValidationAnalyzer.analyze`): its keys are `label`, `confidence`,
`reason` and `metadata` — there is no `validity` key.  Only the
string-valued entries are modelled. -/
def pipeline_validation_dict (r : VRes) : String → Option String :=
  fun k => if k = "label" then some r.label
    else if k = "reason" then some r.reason
    else none

/-- C2: `calculate_base_score` reads `validation["validity"]`, a key the
pipeline's Validation stage never writes (it writes `label` with values
valid/likely/invalid).  Hence on pipeline findings the validity bonus
never fires and the rule score is independent of the validator's
verdict; concretely, an `API_KEY` finding whose secret the validator
confirmed (`label = "valid"`, confidence 95) scores 15 ("High-Value
Secret Type" only) — not 60 + 15. -/
theorem c2_validity_bonus_dead :
    (∀ (cat : String) (labels : List String) (r1 r2 : VRes),
      calculate_base_score ⟨cat, pipeline_validation_dict r1, labels⟩ =
        calculate_base_score ⟨cat, pipeline_validation_dict r2, labels⟩) ∧
    calculate_base_score
        ⟨"API_KEY", pipeline_validation_dict (mkResult "valid" 95 "Structurally valid JWT"), []⟩ =
      (15, "Low", ["High-Value Secret Type: API_KEY"]) := by
  constructor
  · intro cat labels r1 r2
    rfl
  · decide

/-! ### `app/utils/leak_detector.py` — Leak Detector -/

/-- A single-quote character (used inside indicator strings below). -/
def sq : String := String.mk [Char.ofNat 39]

/-- A compiled detection rule as produced by `_compile_rule`: its
metadata fields, its enabled flag, and whether a compiled pattern is
present (the defensive `if not regex: continue` check).  The compiled
regex itself is represented by the `matcher` parameter of
`detect_leaks`. -/
structure LRule where
  rule_id : String
  rule_label : String
  severity : String
  category : String
  source : String
  enabled : Bool
  has_regex : Bool
deriving DecidableEq

/-- One `re.finditer` match object: span and captured groups. -/
structure PyMatch where
  mstart : Nat
  mstop : Nat
  group0 : String
  groups : List (Option String)

/-- The matched value chosen by `detect_leaks`: the first truthy capture
group, else the whole match. -/
def matched_value (m : PyMatch) : String :=
  match m.groups.find? (fun g => match g with | some s => s ≠ "" | none => false) with
  | some (some s) => s
  | _ => m.group0

/-- `_snippet_from_pos`: the context window
`text[max(0, start-80) : min(len(text), end+80)]`. -/
def snippet_from_pos (text : List Char) (s e : Nat) : List Char :=
  (text.drop (s - 80)).take (min text.length (e + 80) - (s - 80))

/-- The DOM/URL-assignment idioms checked when the rule is URL-flavored. -/
def urlIdioms : List String :=
  [".src=", "src=\"", "src=" ++ sq, ".href=", "href=\"", "href=" ++ sq,
   "iframe.src", "window.location", "location.href", "ajax(", "axios(", "fetch("]

/-- The generic DOM indicators checked for every rule. -/
def domIndicators : List String :=
  ["new_script.src", "script.src", "link.href", "img.src", "iframe.src",
   "window.location", "document.getelementsby", ".appendchild", "addeventlistener"]

/-- Scan for `_here` reachable without crossing a newline (the gap the
pattern's `.*` may span: `re.search` here has no `re.S`, so `.` cannot
match `'\n'`). -/
def hereAfterGap : List Char → Bool
  | [] => false
  | c :: rest =>
    if "_here".data.isPrefixOf (c :: rest) then true
    else if c = Char.ofNat 10 then false
    else hereAfterGap rest

/-- Does the lowered match text contain `insert_` followed — with no
newline in between — by `_here`?  The translation of
`re.search(r"INSERT_.*_HERE", match, re.I)`. -/
def insertHereHit (ml : List Char) : Bool :=
  ml.tails.any (fun t =>
    "insert_".data.isPrefixOf t ∧ hereAfterGap (t.drop 7))

/-- `leak_detector._is_false_positive`, translated clause by clause; the
placeholder regexes reduce to case-insensitive substring tests
(`xxx+` matches iff `xxx` occurs, `INSERT_.*_HERE` via `insertHereHit`). -/
def is_false_positive (matched snippet rule_id category : String) : Bool :=
  if matched = "" then true
  else
    let ml := pyLower matched
    let sl := pyLower snippet
    if (rule_id ≠ "" ∧ ["url", "http", "https"].any (fun x => strContains (pyLower rule_id) x)) ∧
        urlIdioms.any (fun p => strContains sl p) then true
    else if ((rule_id ≠ "" ∧ strContains (pyLower rule_id) "file") ∨ category = "info") ∧
        strStartsWith matched "/node_modules" then true
    else if domIndicators.any (fun p => strContains sl p) then true
    else if (pyStripWs matched.data).length < 8 then true
    else if ["example.com", "test.com", "localhost", "127.0.0.1", "your_api_key",
        "replace_me", "todo", "xxx"].any (fun p => strContains ml p) then true
    else if insertHereHit ml.data then true
    else false

/-- One finding produced by `detect_leaks` (`matched` stands for the
source's `match` key, a Lean keyword). -/
structure Leak where
  rule_id : String
  rule_name : String
  severity : String
  category : String
  rule_source : String
  snippet : String
  matched : String
  source : String
  detector : String
deriving DecidableEq

/-- The deduplication key `(rule_id, match, source)`. -/
def leakKey (l : Leak) : String × String × String :=
  (l.rule_id, l.matched, l.source)

/-- The AST literal keyword heuristic
`re.search(r"(secret|token|api[_-]?key|access|passwd|password|private_key|client_secret)", lit, re.I)`. -/
def astKeywordHit (lit : String) : Bool :=
  ["secret", "token", "api_key", "api-key", "apikey", "access", "passwd",
   "password", "private_key", "client_secret"].any
    (fun k => strContains (pyLower lit) k)

/-- `leak_detector.detect_leaks`.  The deterministic library components
are explicit parameters: `matcher rule content` stands for
`rule["regex"].finditer(content)` and `ast_literals content` for the
string literals `_detect_literals_ast` walks out of the esprima parse
(an empty list models a tolerated parse failure). -/
def detect_leaks (matcher : LRule → String → List PyMatch)
    (ast_literals : String → List String)
    (content source : String) (patterns : List LRule) : List Leak :=
  let regexLeaks := patterns.flatMap (fun rule =>
    if rule.enabled ∧ rule.has_regex then
      (matcher rule content).filterMap (fun m =>
        let matched := matched_value m
        let snip := String.mk (snippet_from_pos content.data m.mstart m.mstop)
        if is_false_positive matched snip rule.rule_id rule.category then none
        else some
          { rule_id := rule.rule_id
            rule_name := rule.rule_label
            severity := rule.severity
            category := rule.category
            rule_source := rule.source
            snippet := snip
            matched := matched
            source := source
            detector := "regex" })
    else [])
  let astLeaks := (ast_literals content).filterMap (fun lit =>
    if lit.length < 12 then none
    else if astKeywordHit lit then
      if is_false_positive lit lit "ast_literal" "ast" then none
      else some
        { rule_id := "ast_literal"
          rule_name := "AST Suspicious Literal"
          severity := "low"
          category := "ast"
          rule_source := "ast"
          snippet := String.mk (lit.data.take 400)
          matched := lit
          source := source
          detector := "ast" }
    else none)
  dedupeKeyLoop leakKey [] (regexLeaks ++ astLeaks)

/-! ### Claim C9 — leak detector determinism and deduplication -/

/-- C9: with the regex engine and AST literal extractor modelled as the
deterministic functions they are, `detect_leaks` is a pure function —
two runs on the same content and rule snapshot give the identical list —
and its output is deduplicated by `(rule_id, match, source)`: no two
returned findings share that key. -/
theorem c9_detector_determinism (matcher : LRule → String → List PyMatch)
    (ast_literals : String → List String) (content source : String)
    (patterns : List LRule) :
    detect_leaks matcher ast_literals content source patterns =
      detect_leaks matcher ast_literals content source patterns ∧
    List.Pairwise (fun a b => leakKey a ≠ leakKey b)
      (detect_leaks matcher ast_literals content source patterns) := by
  refine ⟨rfl, ?_⟩
  unfold detect_leaks
  exact dedupeKeyLoop_pairwise leakKey [] _

/-! ### `app/blueprints/tasks/js_discovery.py` — crawler BFS -/

/-- The environment of the BFS crawl loop in `js_discovery`:
`normalize base u` models `extractors.normalize_url` (`none` for a falsy
result), `fetch u` models `safe_get` plus `res["response"].text` (`none`
when `res["ok"]` is false), and `nested content url` models
`extract_nested_js(content, url)`.  All three are deterministic
functions of their inputs for a fixed network snapshot. -/
structure CrawlEnv where
  startUrl : String
  normalize : String → String → Option String
  fetch : String → Option String
  nested : String → String → List String

/-- The `while queue and len(visited) < max_js` loop of `js_discovery`:
pop, normalize against the start URL, skip visited, mark visited, fetch
(skips on failure, empty or oversized content), record the discovered
external asset, and enqueue each nested reference not yet visited and
not already queued.  Termination: every iteration either grows the
capped visited set or shrinks the queue. -/
def bfsLoop (env : CrawlEnv) (cap : Nat) (queue visited discovered : List String) :
    List String × List String :=
  match queue with
  | [] => (visited, discovered)
  | u :: qrest =>
    if hcap : visited.length < cap then
      match env.normalize env.startUrl u with
      | none => bfsLoop env cap qrest visited discovered
      | some ju =>
        if ju ∈ visited then bfsLoop env cap qrest visited discovered
        else
          match env.fetch ju with
          | none => bfsLoop env cap qrest (ju :: visited) discovered
          | some content =>
            if content = "" ∨ content.length > 2000000 then
              bfsLoop env cap qrest (ju :: visited) discovered
            else
              let queue1 := (env.nested content ju).foldl (fun q n =>
                match env.normalize ju n with
                | none => q
                | some n1 => if n1 ∈ (ju :: visited) ∨ n1 ∈ q then q else q ++ [n1]) qrest
              bfsLoop env cap queue1 (ju :: visited) (discovered ++ [ju])
    else (visited, discovered)
termination_by (cap - visited.length, queue.length)
decreasing_by
  all_goals simp_wf
  all_goals first
    | (apply Prod.Lex.right ; omega)
    | (apply Prod.Lex.left ; omega)

/-- The visited set never exceeds the asset cap when it starts within it.
The induction mirrors the loop's termination measure: an outer descent
on the remaining cap, an inner structural descent on the queue. -/
theorem bfsLoop_visited_le (env : CrawlEnv) (cap : Nat) :
    ∀ (m : Nat) (queue visited discovered : List String),
      cap - visited.length ≤ m → visited.length ≤ cap →
      (bfsLoop env cap queue visited discovered).1.length ≤ cap := by
  intro m
  induction m with
  | zero =>
    intro queue visited discovered hm hle
    match queue with
    | [] =>
      rw [bfsLoop]
      exact hle
    | u :: qrest =>
      rw [bfsLoop]
      rw [dif_neg (by omega)]
      exact hle
  | succ m ih =>
    intro queue
    induction queue with
    | nil =>
      intro visited discovered hm hle
      rw [bfsLoop]
      exact hle
    | cons u qrest ihq =>
      intro visited discovered hm hle
      rw [bfsLoop]
      by_cases hcap : visited.length < cap
      · rw [dif_pos hcap]
        cases hnorm : env.normalize env.startUrl u with
        | none => exact ihq visited discovered hm hle
        | some ju =>
          dsimp only
          by_cases hmem : ju ∈ visited
          · rw [if_pos hmem]
            exact ihq visited discovered hm hle
          · rw [if_neg hmem]
            cases hfetch : env.fetch ju with
            | none =>
              exact ih qrest (ju :: visited) discovered (by simp ; omega) (by simp ; omega)
            | some content =>
              dsimp only
              by_cases hbad : content = "" ∨ content.length > 2000000
              · rw [if_pos hbad]
                exact ih qrest (ju :: visited) discovered (by simp ; omega) (by simp ; omega)
              · rw [if_neg hbad]
                exact ih _ (ju :: visited) (discovered ++ [ju])
                  (by simp ; omega) (by simp ; omega)
      · rw [dif_neg hcap]
        exact hle

/-- The `n`-th URL of the synthetic chain graph: a run of `n + 1` `'a'`s. -/
def chainUrl (n : Nat) : String := String.mk (List.replicate (n + 1) 'a')

/-- A synthetic script-reference graph deeper than any cap: every
fetched script's body references exactly one fresh successor script,
all fetches succeed with small non-empty content, and normalization is
the identity (URLs are already absolute). -/
def chainEnv : CrawlEnv :=
  { startUrl := chainUrl 0
    normalize := fun _ u => some u
    fetch := fun u => some u
    nested := fun content _ => [content ++ "a"] }

/-- The visited list after the chain crawl has processed `j` URLs. -/
def chainVisited (j : Nat) : List String := (List.range j).reverse.map chainUrl

/-- The discovered-asset list after the chain crawl has processed `j` URLs. -/
def chainDisc (j : Nat) : List String := (List.range j).map chainUrl

theorem chainUrl_inj {a b : Nat} (h : chainUrl a = chainUrl b) : a = b := by
  have hlen := congrArg (fun s => s.data.length) h
  simp [chainUrl] at hlen
  omega

theorem chainUrl_not_mem_visited {j k : Nat} (h : j ≤ k) :
    chainUrl k ∉ chainVisited j := by
  unfold chainVisited
  intro hmem
  simp only [List.mem_map, List.mem_reverse, List.mem_range] at hmem
  obtain ⟨i, hi, heq⟩ := hmem
  have := chainUrl_inj heq
  omega

theorem chainUrl_succ (j : Nat) : chainUrl j ++ "a" = chainUrl (j + 1) := by
  unfold chainUrl
  apply String.ext
  rw [String.data_append]
  show List.replicate (j + 1) 'a' ++ [ 'a' ] = List.replicate (j + 1 + 1) 'a'
  rw [← List.replicate_succ' (j + 1) 'a']

theorem chainVisited_succ (j : Nat) :
    chainUrl j :: chainVisited j = chainVisited (j + 1) := by
  unfold chainVisited
  rw [List.range_succ, List.reverse_append]
  simp

theorem chainDisc_succ (j : Nat) :
    chainDisc j ++ [chainUrl j] = chainDisc (j + 1) := by
  unfold chainDisc
  rw [List.range_succ]
  simp

theorem chainVisited_length (j : Nat) : (chainVisited j).length = j := by
  simp [chainVisited]

theorem chainDisc_length (j : Nat) : (chainDisc j).length = j := by
  simp [chainDisc]

theorem chainUrl_ne_empty (j : Nat) : chainUrl j ≠ "" := by
  intro h
  have hd : (chainUrl j).data = ("" : String).data := by rw [h]
  simp [chainUrl] at hd

theorem chainUrl_length (j : Nat) : (chainUrl j).length = j + 1 := by
  simp [chainUrl, String.length]

/-- One iteration of the crawl loop on the chain graph advances the
state by one URL. -/
theorem chain_step (j : Nat) (hj : j < 200) :
    bfsLoop chainEnv 200 [chainUrl j] (chainVisited j) (chainDisc j) =
      bfsLoop chainEnv 200 [chainUrl (j + 1)] (chainVisited (j + 1)) (chainDisc (j + 1)) := by
  have hlen : (chainVisited j).length < 200 := by rw [chainVisited_length] ; omega
  have hmem : chainUrl j ∉ chainVisited j := chainUrl_not_mem_visited (le_refl j)
  have hmem1 : chainUrl (j + 1) ∉ chainVisited (j + 1) :=
    chainUrl_not_mem_visited (le_refl (j + 1))
  have hne : ¬ (chainUrl j = "" ∨ (chainUrl j).length > 2000000) := by
    push_neg
    refine ⟨chainUrl_ne_empty j, ?_⟩
    rw [chainUrl_length]
    omega
  conv_lhs => rw [bfsLoop]
  simp [chainEnv, hlen, hmem, hne, hmem1, chainUrl_succ, chainVisited_succ, chainDisc_succ]

/-- Running the crawl loop on the chain graph with cap 200 from the
`j`-th state visits exactly the first 200 URLs of the chain. -/
theorem chain_run : ∀ (d j : Nat), j + d = 200 →
    bfsLoop chainEnv 200 [chainUrl j] (chainVisited j) (chainDisc j) =
      (chainVisited 200, chainDisc 200) := by
  intro d
  induction d with
  | zero =>
    intro j hj
    have hlen : ¬ (chainVisited j).length < 200 := by rw [chainVisited_length] ; omega
    conv_lhs => rw [bfsLoop]
    simp only [hlen, dite_false, if_neg hlen]
    rw [show j = 200 by omega]
  | succ d ih =>
    intro j hj
    rw [chain_step j (by omega)]
    exact ih (j + 1) (by omega)

/-! ### Claim C8 — crawl cap -/

/-- C8: the BFS crawl loop (a total function: its termination measure is
the lexicographic pair of remaining cap and queue length, so the
traversal stops as soon as the visited set reaches the cap or the queue
empties) never visits more than `cap` unique URLs, and on a synthetic
script graph with more reachable unique script URLs than the default cap
of 200 it visits and discovers exactly 200 unique external assets. -/
theorem c8_crawl_cap :
    (∀ (env : CrawlEnv) (cap : Nat) (queue : List String),
      (bfsLoop env cap queue [] []).1.length ≤ cap) ∧
    (bfsLoop chainEnv 200 [chainUrl 0] [] []).1.length = 200 ∧
    (bfsLoop chainEnv 200 [chainUrl 0] [] []).2.length = 200 := by
  have hrun : bfsLoop chainEnv 200 [chainUrl 0] [] [] =
      (chainVisited 200, chainDisc 200) := by
    have h0v : chainVisited 0 = [] := by simp [chainVisited]
    have h0d : chainDisc 0 = [] := by simp [chainDisc]
    have hstep := chain_run 200 0 (by omega)
    rw [h0v, h0d] at hstep
    exact hstep
  refine ⟨fun env cap queue =>
    bfsLoop_visited_le env cap (cap - 0) queue [] [] (by omega) (by simp), ?_, ?_⟩
  · rw [hrun]
    exact chainVisited_length 200
  · rw [hrun]
    exact chainDisc_length 200

end Sentrix
